import Mathlib

/-!
TodoSDK: a shallow embedding of `src/index.js` and `src/errors.js`

The JavaScript client is embedded as pure Lean functions.

* JavaScript values are the type `JSVal`.  A number is given by the two things
  the client observes of it, its truthiness and its string form, so that every
  number (integer or not, `NaN`, `Infinity`) is a value and prints as it does in
  JavaScript.  Objects are plain objects with data properties; symbols,
  functions and bigints are not represented.
* `JSVal.toStr?` is JavaScript `ToString`, which throws on some objects.  The
  response handler, where the converted value comes from the remote end, is
  modelled with it.  Where the client converts a value of its caller (an id, a
  query value, the apiKey, the base address) the model uses `JSVal.toStr`, which
  agrees with `ToString` on every value whose conversion does not throw.
* A call of a public method is a `Run`: the list of calls made to
  `httpModule.request` (with the payload written to each) and the way the
  returned promise settles.
* The platform is the record `Env`: WHATWG `URL` resolution, `JSON.parse`,
  `JSON.stringify` and the behaviour of the remote endpoint are parameters,
  because their code is not part of this repository.
-/

/-! ## JavaScript values -/

/-- A JavaScript number, given by what the client observes of it: `truthy` is
false exactly for `0`, `-0` and `NaN`, and `text` is the result of
`Number.prototype.toString()` (such as `5`, `1.5`, `1e+21`, `Infinity`, `NaN`). -/
structure JSNumber where
  truthy : Bool
  text : String

namespace JSNumber

/-- The number with the integer value `n`, for `n` below `2 ^ 53`: these
integers are exact and print in decimal. -/
def ofNat (n : Nat) : JSNumber :=
  ⟨n != 0, toString n⟩

instance instOfNat {n : Nat} : OfNat JSNumber n :=
  ⟨ofNat n⟩

/-- The number `NaN`. -/
def nan : JSNumber :=
  ⟨false, "NaN"⟩

end JSNumber

/-- JavaScript values handled by the client. -/
inductive JSVal where
  | undefined
  | null
  | bool (b : Bool)
  | num (x : JSNumber)
  | str (s : String)
  | arr (items : List JSVal)
  | obj (fields : List (String × JSVal))

namespace JSVal

/-- JavaScript `ToBoolean`: `undefined`, `null`, `false`, `0`, `NaN` and `""` are falsy. -/
def truthy : JSVal → Bool
  | undefined => false
  | null => false
  | bool b => b
  | num x => x.truthy
  | str s => s != ""
  | arr _ => true
  | obj _ => true

/-- First own property called `k` in a field list. -/
def lookup (k : String) : List (String × JSVal) → Option JSVal
  | [] => none
  | (k', v) :: rest => if k' == k then some v else lookup k rest

/-- Property read `v.k` for a value that is neither `undefined` nor `null`
(on those the read throws, see `get?`).  Only the property names this library
reads are meant: `title`, `completed`, `userId`, `limit`, `_limit`, `start`,
`_start`, `message`, `baseUrl`, `timeout`; primitives and arrays have none of
them. -/
def get (v : JSVal) (k : String) : JSVal :=
  match v with
  | obj fields => (lookup k fields).getD undefined
  | _ => undefined

/-- Property read `v.k`; `none` stands for the `TypeError` thrown when `v` is
`undefined` or `null`. -/
def get? (v : JSVal) (k : String) : Option JSVal :=
  match v with
  | undefined => none
  | null => none
  | _ => some (v.get k)

/-- Test `v !== undefined`. -/
def isDefined : JSVal → Bool
  | undefined => false
  | _ => true

/-- `Object.keys(v)` for a value that is neither `undefined` nor `null`:
the own keys of an object, the indices of an array or of a string, nothing
for numbers and booleans. -/
def keys : JSVal → List String
  | obj fields => fields.map Prod.fst
  | arr items => (List.range items.length).map toString
  | str s => (List.range s.length).map toString
  | _ => []

/-- Does the field list hold an own property called `toString`?  Its value is
data, never a function, so `ToString` of the object finds nothing to call: the
own `toString` is skipped, `valueOf` yields no primitive, and a `TypeError` is
thrown. -/
def hasOwnToString (fields : List (String × JSVal)) : Bool :=
  fields.any fun p => p.1 == "toString"

mutual
/-- JavaScript `ToString` (template literals, `URLSearchParams.append`,
`new Error(message)`); `none` stands for the `TypeError` it throws. -/
def toStr? : JSVal → Option String
  | undefined => some "undefined"
  | null => some "null"
  | bool b => some (if b then "true" else "false")
  | num x => some x.text
  | str s => some s
  | arr items => joinItems? items
  | obj fields => if hasOwnToString fields then none else some "[object Object]"
/-- `Array.prototype.join(",")`: `undefined` and `null` items print as nothing. -/
def joinItems? : List JSVal → Option String
  | [] => some ""
  | [x] => itemStr? x
  | x :: y :: rest =>
    match itemStr? x, joinItems? (y :: rest) with
    | some first, some others => some (first ++ "," ++ others)
    | _, _ => none
/-- One array item inside `join`. -/
def itemStr? : JSVal → Option String
  | undefined => some ""
  | null => some ""
  | bool b => some (if b then "true" else "false")
  | num x => some x.text
  | str s => some s
  | arr items => joinItems? items
  | obj fields => if hasOwnToString fields then none else some "[object Object]"
end

/-- The string form of a value: the result of `ToString` when the conversion
does not throw (`toStr_of_toStr?`). -/
def toStr (v : JSVal) : String :=
  (toStr? v).getD "[object Object]"

end JSVal

/-! ## Platform functions -/

/-- JavaScript `a || b`: the left operand when it is truthy, else the right one. -/
def JSVal.or (a b : JSVal) : JSVal :=
  if a.truthy then a else b

/-- Does the character list `t` begin with `p`? -/
def startsWith : List Char → List Char → Bool
  | _, [] => true
  | [], _ :: _ => false
  | c :: t, d :: p => c == d && startsWith t p

/-- Does `p` occur in `t` as a contiguous run? -/
def containsChars : List Char → List Char → Bool
  | [], p => startsWith [] p
  | c :: t, p => startsWith (c :: t) p || containsChars t p

/-- The method call `v.includes(needle)` for a string `needle`:
`String.prototype.includes` on a string, `Array.prototype.includes` on an
array; `none` stands for the `TypeError` raised when `v` has no such method. -/
def JSVal.includes (v : JSVal) (needle : String) : Option Bool :=
  match v with
  | .str s => some (containsChars s.toList needle.toList)
  | .arr items => some (items.any fun x => match x with
      | .str s => s == needle
      | _ => false)
  | _ => none

/-- The method `toUpperCase()` on a string of ASCII characters, which every
method name passed to `_makeRequest` is. -/
def toUpperCase (s : String) : String :=
  String.mk (s.toList.map Char.toUpper)

/-- Upper-case hexadecimal digit. -/
def hexDigit (n : Nat) : Char :=
  "0123456789ABCDEF".toList.getD n '0'

/-- The UTF-8 bytes of a character. -/
def utf8Bytes (c : Char) : List Nat :=
  let n := c.toNat
  if n < 0x80 then [n]
  else if n < 0x800 then [0xC0 + n / 64, 0x80 + n % 64]
  else if n < 0x10000 then [0xE0 + n / 4096, 0x80 + n / 64 % 64, 0x80 + n % 64]
  else [0xF0 + n / 262144, 0x80 + n / 4096 % 64, 0x80 + n / 64 % 64, 0x80 + n % 64]

/-- One character in the `application/x-www-form-urlencoded` serialisation used
by `URLSearchParams.toString()`. -/
def formEncodeChar (c : Char) : List Char :=
  if c.isAlphanum || c == '*' || c == '-' || c == '.' || c == '_' then [c]
  else if c == ' ' then ['+']
  else (utf8Bytes c).flatMap fun b => ['%', hexDigit (b / 16), hexDigit (b % 16)]

/-- The `application/x-www-form-urlencoded` serialisation of a string. -/
def formEncode (s : String) : String :=
  String.mk (s.toList.flatMap formEncodeChar)

/-- The list of name-value pairs held by a `URLSearchParams` object. -/
abbrev URLSearchParams := List (String × String)

namespace URLSearchParams

/-- The method `append(name, value)`; the value is converted to a string. -/
def append (q : URLSearchParams) (name : String) (value : JSVal) : URLSearchParams :=
  q ++ [(name, value.toStr)]

/-- The method `toString()`: the pairs as `name=value`, joined by `&`. -/
def toString (q : URLSearchParams) : String :=
  "&".intercalate (q.map fun p => formEncode p.1 ++ "=" ++ formEncode p.2)

end URLSearchParams

/-- The parts of a resolved WHATWG `URL` that the client reads. -/
structure URL where
  protocol : String
  hostname : String
  port : String
  pathname : String
  search : String

/-- The options object handed to `httpModule.request`. -/
structure RequestOptions where
  hostname : String
  port : JSVal
  path : String
  method : String
  headers : List (String × JSVal)
  timeout : JSVal

/-- One call of `httpModule.request`: the module chosen, the options, and the
payload passed to `req.write` (if any). -/
structure HttpRequest where
  secure : Bool
  options : RequestOptions
  written : Option String

/-- The first event by which an issued request settles its promise. -/
inductive NetEvent where
  | response (statusCode : Nat) (chunks : List String)
  | error (message : String)
  | timeout

/-- The platform and the remote endpoint.  `parseURL input base` is
`new URL(input, base)` (`none` when it throws), `jsonParse` is `JSON.parse`
(`none` when it throws), `jsonStringify` is `JSON.stringify`, and `exchange`
tells how the network answers a request. -/
structure Env where
  parseURL : String → String → Option URL
  jsonParse : String → Option JSVal
  jsonStringify : JSVal → String
  exchange : HttpRequest → NetEvent

/-! ## `src/errors.js` -/

/-- The errors a call can fail with: a plain `Error`, a `TypeError` raised by
the runtime, and the two classes of `src/errors.js`. -/
inductive SdkError where
  | error (message : String)
  | typeError (message : String)
  | todoAPIError (message : String) (statusCode : Nat) (response : JSVal)
  | networkError (message : String)

/-- The message stored by `super(message)`, that is `new Error(message)`: empty
for `undefined`, else `ToString` of the argument; `none` when that conversion
throws. -/
def errorMessage : JSVal → Option String
  | .undefined => some ""
  | m => m.toStr?

/-- The constructor `new TodoAPIError(message, statusCode, response = null)`;
`none` when `super(message)` throws. -/
def TodoAPIError (message : JSVal) (statusCode : Nat) (response : JSVal := .null) :
    Option SdkError :=
  match errorMessage message with
  | none => none
  | some text =>
    some (.todoAPIError text statusCode
      (match response with
        | .undefined => .null
        | r => r))

/-- The constructor `new NetworkError(message)`, which the client calls with
strings only. -/
def NetworkError (message : String) : SdkError :=
  .networkError message

/-! ## `src/index.js` -/

/-- What a call does: the requests handed to `httpModule.request`, in order,
and how the returned promise settles. -/
structure Run where
  requests : List HttpRequest
  outcome : Except SdkError JSVal

/-- A call that fails before any request is made. -/
def Run.throw (e : SdkError) : Run :=
  ⟨[], .error e⟩

/-- The fields of a `TodoSDK` instance. -/
structure TodoSDK where
  apiKey : JSVal
  baseUrl : JSVal
  timeout : JSVal
  userId : JSVal

namespace TodoSDK

/-- The constructor `new TodoSDK(apiKey = "test", options = {})`. -/
def constructor (apiKey : JSVal := .undefined) (options : JSVal := .undefined) :
    Except SdkError TodoSDK :=
  let apiKey := match apiKey with
    | .undefined => JSVal.str "test"
    | a => a
  let options := match options with
    | .undefined => JSVal.obj []
    | o => o
  match options.get? "baseUrl" with
  | none => .error (.typeError "Cannot read properties of null (reading 'baseUrl')")
  | some _ =>
    .ok {
      apiKey := apiKey
      baseUrl := (options.get "baseUrl").or (.str "https://jsonplaceholder.typicode.com")
      timeout := (options.get "timeout").or (.num 5000)
      userId := (options.get "userId").or (.num 1) }

/-- The catch block of the `end` handler:
`reject(new TodoAPIError("Invalid JSON response", res.statusCode))`. -/
def rejectInvalidJson (statusCode : Nat) : Except SdkError JSVal :=
  match TodoAPIError (.str "Invalid JSON response") statusCode with
  | some e => .error e
  | none => .error (.typeError "Cannot convert object to primitive value")

/-- The handler of the response's `end` event: parse the buffered body and
settle the promise by status code.  Whatever throws inside the `try` block (the
parse, the read of `message` on `null`, the conversion of the message inside
`new TodoAPIError`) ends in the catch block. -/
def onEnd (env : Env) (statusCode : Nat) (responseData : String) : Except SdkError JSVal :=
  match (if responseData != "" then env.jsonParse responseData else some (.obj [])) with
  | none => rejectInvalidJson statusCode
  | some parsedData =>
    if statusCode ≥ 200 && statusCode < 300 then .ok parsedData
    else
      match parsedData.get? "message" with
      | none => rejectInvalidJson statusCode
      | some message =>
        match TodoAPIError (message.or (.str "API Error")) statusCode parsedData with
        | none => rejectInvalidJson statusCode
        | some e => .error e

/-- How the promise settles once the request has been issued. -/
def settle (env : Env) : NetEvent → Except SdkError JSVal
  | .response statusCode chunks => onEnd env statusCode (chunks.foldl (· ++ ·) "")
  | .error message => .error (NetworkError ("Network error: " ++ message))
  | .timeout => .error (NetworkError "Request timeout")

/-- The private method `_makeRequest(method, endpoint, data = null)`. -/
def _makeRequest (env : Env) (sdk : TodoSDK) (method endpoint : String)
    (data : JSVal := .null) : Run :=
  match env.parseURL endpoint sdk.baseUrl.toStr with
  | none => Run.throw (.typeError "Invalid URL")
  | some url =>
    let isHttps := url.protocol == "https:"
    let headers : List (String × JSVal) :=
      [("Content-Type", .str "application/json"), ("User-Agent", .str "TodoSDK/1.0.0")]
    match sdk.baseUrl.includes "jsonplaceholder" with
    | none => Run.throw (.typeError "this.baseUrl.includes is not a function")
    | some found =>
      let headers :=
        if found == false then
          headers ++ [("Authorization", .str ("Bearer " ++ sdk.apiKey.toStr))]
        else headers
      let headers :=
        if data.truthy then
          headers ++
            [("Content-Length", .num (JSNumber.ofNat (env.jsonStringify data).utf8ByteSize))]
        else headers
      let options : RequestOptions := {
        hostname := url.hostname
        port := if url.port != "" then .str url.port else .num (if isHttps then 443 else 80)
        path := url.pathname ++ url.search
        method := toUpperCase method
        headers := headers
        timeout := sdk.timeout }
      let req : HttpRequest := {
        secure := isHttps
        options := options
        written := if data.truthy then some (env.jsonStringify data) else none }
      ⟨[req], settle env (env.exchange req)⟩

/-- The query parameters collected by `getTodos`. -/
def getTodosQuery (options : JSVal) : URLSearchParams :=
  let queryParams : URLSearchParams := []
  let queryParams :=
    if (options.get "userId").truthy then queryParams.append "userId" (options.get "userId")
    else queryParams
  let queryParams :=
    if (options.get "completed").isDefined then
      queryParams.append "completed" (options.get "completed")
    else queryParams
  let queryParams :=
    if ((options.get "limit").or (options.get "_limit")).truthy then
      queryParams.append "_limit" ((options.get "limit").or (options.get "_limit"))
    else queryParams
  let queryParams :=
    if ((options.get "start").or (options.get "_start")).truthy then
      queryParams.append "_start" ((options.get "start").or (options.get "_start"))
    else queryParams
  queryParams

/-- The constant `endpoint` of `getTodos`. -/
def getTodosEndpoint (options : JSVal) : String :=
  let queryParams := getTodosQuery options
  "/todos" ++ (if queryParams.toString != "" then "?" ++ queryParams.toString else "")

/-- The method `getTodos(options = {})`. -/
def getTodos (env : Env) (sdk : TodoSDK) (options : JSVal := .undefined) : Run :=
  let options := match options with
    | .undefined => JSVal.obj []
    | o => o
  match options.get? "userId" with
  | none => Run.throw (.typeError "Cannot read properties of null (reading 'userId')")
  | some _ => _makeRequest env sdk "GET" (getTodosEndpoint options)

/-- The method `getTodo(id)`. -/
def getTodo (env : Env) (sdk : TodoSDK) (id : JSVal := .undefined) : Run :=
  if !id.truthy then Run.throw (.error "Todo ID is required")
  else _makeRequest env sdk "GET" ("/todos/" ++ id.toStr)

/-- The method `createTodo(todoData)`. -/
def createTodo (env : Env) (sdk : TodoSDK) (todoData : JSVal := .undefined) : Run :=
  if !todoData.truthy || !(todoData.get "title").truthy then
    Run.throw (.error "Todo title is required")
  else
    let data := JSVal.obj [
      ("title", todoData.get "title"),
      ("completed", (todoData.get "completed").or (.bool false)),
      ("userId", (todoData.get "userId").or sdk.userId)]
    _makeRequest env sdk "POST" "/todos" data

/-- The object `filteredData` built by `updateTodo` and by `patchTodo`. -/
def filteredData (updateData : JSVal) : JSVal :=
  let fields : List (String × JSVal) := []
  let fields :=
    if (updateData.get "title").isDefined then fields ++ [("title", updateData.get "title")]
    else fields
  let fields :=
    if (updateData.get "completed").isDefined then
      fields ++ [("completed", updateData.get "completed")]
    else fields
  let fields :=
    if (updateData.get "userId").isDefined then fields ++ [("userId", updateData.get "userId")]
    else fields
  .obj fields

/-- The method `updateTodo(id, updateData)`. -/
def updateTodo (env : Env) (sdk : TodoSDK) (id : JSVal := .undefined)
    (updateData : JSVal := .undefined) : Run :=
  if !id.truthy then Run.throw (.error "Todo ID is required")
  else if !updateData.truthy || updateData.keys.length == 0 then
    Run.throw (.error "Update data is required")
  else _makeRequest env sdk "PUT" ("/todos/" ++ id.toStr) (filteredData updateData)

/-- The method `patchTodo(id, updateData)`. -/
def patchTodo (env : Env) (sdk : TodoSDK) (id : JSVal := .undefined)
    (updateData : JSVal := .undefined) : Run :=
  if !id.truthy then Run.throw (.error "Todo ID is required")
  else if !updateData.truthy || updateData.keys.length == 0 then
    Run.throw (.error "Update data is required")
  else _makeRequest env sdk "PATCH" ("/todos/" ++ id.toStr) (filteredData updateData)

/-- The method `deleteTodo(id)`. -/
def deleteTodo (env : Env) (sdk : TodoSDK) (id : JSVal := .undefined) : Run :=
  if !id.truthy then Run.throw (.error "Todo ID is required")
  else _makeRequest env sdk "DELETE" ("/todos/" ++ id.toStr)

/-- The method `completeTodo(id)`. -/
def completeTodo (env : Env) (sdk : TodoSDK) (id : JSVal := .undefined) : Run :=
  patchTodo env sdk id (.obj [("completed", .bool true)])

/-- The method `getTodosByUser(userId)`. -/
def getTodosByUser (env : Env) (sdk : TodoSDK) (userId : JSVal := .undefined) : Run :=
  if !userId.truthy then Run.throw (.error "User ID is required")
  else getTodos env sdk (.obj [("userId", userId)])

end TodoSDK

/-! ## A sample platform

A concrete `Env`, used to run the client on explicit inputs. -/

/-- A sample `new URL(input, base)`: two base addresses resolve, every other
base is rejected as an invalid URL; `input` is an absolute path with an
optional query. -/
def sampleParseURL (input base : String) : Option URL :=
  let pathname := String.mk (input.toList.takeWhile (· != '?'))
  let search := String.mk (input.toList.dropWhile (· != '?'))
  if base == "https://jsonplaceholder.typicode.com" then
    some ⟨"https:", "jsonplaceholder.typicode.com", "", pathname, search⟩
  else if base == "http://localhost:3000" then
    some ⟨"http:", "localhost", "3000", pathname, search⟩
  else none

/-- A sample `JSON.parse`, defined on a few literal bodies; any other text is
taken to be invalid JSON (as `<html>` is). -/
def sampleJsonParse (text : String) : Option JSVal :=
  if text == "\x7b\x7d" then some (.obj [])
  else if text == "null" then some .null
  else if text == "\x7b\"message\":\"Not found\"\x7d" then
    some (.obj [("message", .str "Not found")])
  else if text == "\x7b\"message\":\"\"\x7d" then some (.obj [("message", .str "")])
  else if text == "\x7b\"id\":1\x7d" then some (.obj [("id", .num 1)])
  else if text == "\x7b\"message\":\x7b\"toString\":1\x7d\x7d" then
    some (.obj [("message", .obj [("toString", .num 1)])])
  else if text == "\x7b\"message\":1e21\x7d" then
    some (.obj [("message", .num ⟨true, "1e+21"⟩)])
  else none

mutual
/-- A sample `JSON.stringify` for values whose strings need no escaping. -/
def sampleStringify : JSVal → String
  | .undefined => "undefined"
  | .null => "null"
  | .bool b => if b then "true" else "false"
  | .num x =>
    if x.text == "NaN" || x.text == "Infinity" || x.text == "-Infinity" then "null" else x.text
  | .str s => "\"" ++ s ++ "\""
  | .arr items => "[" ++ sampleStringifyItems items ++ "]"
  | .obj fields => "\x7b" ++ sampleStringifyFields fields ++ "\x7d"
/-- The items of an array, separated by commas. -/
def sampleStringifyItems : List JSVal → String
  | [] => ""
  | [x] => sampleStringify x
  | x :: y :: rest => sampleStringify x ++ "," ++ sampleStringifyItems (y :: rest)
/-- The fields of an object, separated by commas. -/
def sampleStringifyFields : List (String × JSVal) → String
  | [] => ""
  | [(k, v)] => "\"" ++ k ++ "\":" ++ sampleStringify v
  | (k, v) :: p :: rest =>
    "\"" ++ k ++ "\":" ++ sampleStringify v ++ "," ++ sampleStringifyFields (p :: rest)
end

/-- The sample platform in which the network answers every request with `event`. -/
def sampleEnv (event : NetEvent) : Env where
  parseURL := sampleParseURL
  jsonParse := sampleJsonParse
  jsonStringify := sampleStringify
  exchange := fun _ => event

/-- The client of the test suite: `new TodoSDK("test", {baseUrl, userId: 1})`. -/
def sampleSdk : TodoSDK where
  apiKey := .str "test"
  baseUrl := .str "https://jsonplaceholder.typicode.com"
  timeout := .num 5000
  userId := .num 1

/-- A client of a service other than the demo service. -/
def localSdk : TodoSDK where
  apiKey := .str "secret"
  baseUrl := .str "http://localhost:3000"
  timeout := .num 5000
  userId := .num 7

/-! ## Properties -/

namespace TodoSDK

/-- The call fails with a plain `Error` carrying `message`, and no request was
handed to `httpModule.request`. -/
def FailsBeforeNetwork (r : Run) (message : String) : Prop :=
  r.requests.length = 0 ∧ r.outcome = .error (.error message)

/-- On a value whose conversion does not throw, `toStr` is `ToString`. -/
theorem toStr_of_toStr? (v : JSVal) (text : String) (h : v.toStr? = some text) :
    v.toStr = text := by
  simp [JSVal.toStr, h]

theorem toStr_str (s : String) : (JSVal.str s).toStr = s := rfl

theorem toStr_bool (b : Bool) : (JSVal.bool b).toStr = if b then "true" else "false" := rfl

theorem toStr_num (x : JSNumber) : (JSVal.num x).toStr = x.text := rfl

/-- The catch block rejects with "Invalid JSON response", the status code and
the default response `null`. -/
theorem rejectInvalidJson_eq (statusCode : Nat) :
    rejectInvalidJson statusCode =
      .error (.todoAPIError "Invalid JSON response" statusCode .null) := rfl

theorem failsBeforeNetwork_throw (message : String) :
    FailsBeforeNetwork (Run.throw (.error message)) message :=
  ⟨rfl, rfl⟩

/-- C1: every input that fails a precondition check (falsy id; falsy todoData or
title; truthy id with falsy or key-less update data; falsy userId) makes the
operation fail with the matching message while zero HTTP requests are issued. -/
theorem validation_precedes_network (env : Env) (sdk : TodoSDK) :
    (∀ id : JSVal, id.truthy = false →
      FailsBeforeNetwork (getTodo env sdk id) "Todo ID is required" ∧
      FailsBeforeNetwork (deleteTodo env sdk id) "Todo ID is required" ∧
      FailsBeforeNetwork (completeTodo env sdk id) "Todo ID is required" ∧
      (∀ updateData : JSVal,
        FailsBeforeNetwork (updateTodo env sdk id updateData) "Todo ID is required" ∧
        FailsBeforeNetwork (patchTodo env sdk id updateData) "Todo ID is required")) ∧
    (∀ todoData : JSVal, todoData.truthy = false ∨ (todoData.get "title").truthy = false →
      FailsBeforeNetwork (createTodo env sdk todoData) "Todo title is required") ∧
    (∀ id updateData : JSVal, id.truthy = true →
      updateData.truthy = false ∨ updateData.keys.length = 0 →
      FailsBeforeNetwork (updateTodo env sdk id updateData) "Update data is required" ∧
      FailsBeforeNetwork (patchTodo env sdk id updateData) "Update data is required") ∧
    (∀ userId : JSVal, userId.truthy = false →
      FailsBeforeNetwork (getTodosByUser env sdk userId) "User ID is required") := by
  refine ⟨?_, ?_, ?_, ?_⟩
  · intro id hid
    simp [getTodo, deleteTodo, completeTodo, updateTodo, patchTodo, hid,
      failsBeforeNetwork_throw]
  · intro todoData h
    have hc : (!todoData.truthy || !(todoData.get "title").truthy) = true := by
      rcases h with h | h <;> simp [h]
    simp [createTodo, hc, failsBeforeNetwork_throw]
  · intro id updateData hid h
    have hc : (!updateData.truthy || updateData.keys.length == 0) = true := by
      rcases h with h | h <;> simp [h]
    simp [updateTodo, patchTodo, hid, hc, failsBeforeNetwork_throw]
  · intro userId h
    simp [getTodosByUser, h, failsBeforeNetwork_throw]

/-- Witness for C1: `getTodo(null)`, `createTodo({})`, `updateTodo(1, {})` and
`getTodosByUser(0)` on the sample client. -/
theorem validation_precedes_network_witness :
    FailsBeforeNetwork (getTodo (sampleEnv .timeout) sampleSdk .null) "Todo ID is required" ∧
    FailsBeforeNetwork (createTodo (sampleEnv .timeout) sampleSdk (.obj []))
      "Todo title is required" ∧
    FailsBeforeNetwork (updateTodo (sampleEnv .timeout) sampleSdk (.num 1) (.obj []))
      "Update data is required" ∧
    FailsBeforeNetwork (getTodosByUser (sampleEnv .timeout) sampleSdk (.num 0))
      "User ID is required" :=
  ⟨((validation_precedes_network (sampleEnv .timeout) sampleSdk).1 .null rfl).1,
   (validation_precedes_network (sampleEnv .timeout) sampleSdk).2.1 (.obj []) (Or.inr rfl),
   ((validation_precedes_network (sampleEnv .timeout) sampleSdk).2.2.1 (.num 1) (.obj [])
      rfl (Or.inr rfl)).1,
   (validation_precedes_network (sampleEnv .timeout) sampleSdk).2.2.2 (.num 0) rfl⟩

/-! ### The request primitive -/

/-- A run of `_makeRequest` issues at most one request; when it issues one, the
promise settles by the first event of that exchange. -/
theorem makeRequest_issued (env : Env) (sdk : TodoSDK) (method endpoint : String)
    (data : JSVal) (h : (_makeRequest env sdk method endpoint data).requests ≠ []) :
    ∃ req, (_makeRequest env sdk method endpoint data).requests = [req] ∧
      (_makeRequest env sdk method endpoint data).outcome = settle env (env.exchange req) := by
  unfold _makeRequest at h ⊢
  cases hu : env.parseURL endpoint sdk.baseUrl.toStr with
  | none => simp [hu, Run.throw] at h
  | some url =>
    cases hi : sdk.baseUrl.includes "jsonplaceholder" with
    | none => simp [hu, hi, Run.throw] at h
    | some found => exact ⟨_, rfl, rfl⟩

/-- The outcome of `_makeRequest` once the remote end has answered with a status
code and a body delivered in chunks. -/
theorem makeRequest_outcome_of_response (env : Env) (sdk : TodoSDK) (method endpoint : String)
    (data : JSVal) (s : Nat) (chunks : List String)
    (hissued : (_makeRequest env sdk method endpoint data).requests ≠ [])
    (hanswer : ∀ req ∈ (_makeRequest env sdk method endpoint data).requests,
      env.exchange req = .response s chunks) :
    (_makeRequest env sdk method endpoint data).outcome =
      onEnd env s (chunks.foldl (· ++ ·) "") := by
  obtain ⟨req, hreq, hout⟩ := makeRequest_issued env sdk method endpoint data hissued
  have := hanswer req (by simp [hreq])
  rw [hout, this, settle]

/-- C3: a non-empty response body that is not valid JSON makes `_makeRequest`
fail, whatever the status code `s` (2xx included), with a `TodoAPIError` whose
message is "Invalid JSON response", whose statusCode is `s` and whose response is
`null`; the promise does not resolve. -/
theorem unparsable_response_is_rejected (env : Env) (sdk : TodoSDK)
    (method endpoint : String) (data : JSVal) (s : Nat) (chunks : List String) (body : String)
    (hissued : (_makeRequest env sdk method endpoint data).requests ≠ [])
    (hanswer : ∀ req ∈ (_makeRequest env sdk method endpoint data).requests,
      env.exchange req = .response s chunks)
    (hbody : chunks.foldl (· ++ ·) "" = body)
    (hnonempty : body ≠ "")
    (hinvalid : env.jsonParse body = none) :
    (_makeRequest env sdk method endpoint data).outcome =
      .error (.todoAPIError "Invalid JSON response" s .null) ∧
    ∀ v, (_makeRequest env sdk method endpoint data).outcome ≠ .ok v := by
  have hout := makeRequest_outcome_of_response env sdk method endpoint data s chunks
    hissued hanswer
  rw [hbody] at hout
  have : (_makeRequest env sdk method endpoint data).outcome =
      .error (.todoAPIError "Invalid JSON response" s .null) := by
    rw [hout]
    simp [onEnd, hnonempty, hinvalid, rejectInvalidJson_eq]
  refine ⟨this, ?_⟩
  intro v hv
  rw [this] at hv
  cases hv

/-- Witness for C3: status 200 with the body `<html>`, delivered in two chunks. -/
theorem unparsable_response_is_rejected_witness :
    (_makeRequest (sampleEnv (.response 200 ["<ht", "ml>"])) sampleSdk "GET" "/todos/1").outcome =
      .error (.todoAPIError "Invalid JSON response" 200 .null) :=
  (unparsable_response_is_rejected (sampleEnv (.response 200 ["<ht", "ml>"])) sampleSdk
    "GET" "/todos/1" .null 200 ["<ht", "ml>"] "<html>"
    (List.ne_nil_of_length_pos (by decide)) (fun _ _ => rfl) rfl (by decide) rfl).1

/-- C2, as stated, fails: status 404 with the body `{"message":""}`.  The body
parses, its `message` field is present (the empty string), yet the error message
is "API Error" and not the field. -/
theorem response_classification_falsy_message :
    sampleJsonParse "\x7b\"message\":\"\"\x7d" = some (.obj [("message", .str "")]) ∧
    JSVal.lookup "message" [("message", .str "")] = some (.str "") ∧
    (_makeRequest (sampleEnv (.response 404 ["\x7b\"message\":\"\"\x7d"])) sampleSdk
        "GET" "/todos/1").outcome =
      .error (.todoAPIError "API Error" 404 (.obj [("message", .str "")])) ∧
    (_makeRequest (sampleEnv (.response 404 ["\x7b\"message\":\"\"\x7d"])) sampleSdk
        "GET" "/todos/1").outcome ≠
      .error (.todoAPIError "" 404 (.obj [("message", .str "")])) := by
  refine ⟨rfl, rfl, rfl, ?_⟩
  intro h
  have h2 : (Except.error (.todoAPIError "API Error" 404 (.obj [("message", .str "")])) :
      Except SdkError JSVal) = .error (.todoAPIError "" 404 (.obj [("message", .str "")])) :=
    h
  simp at h2

/-- The error built by `new TodoAPIError(message, statusCode, response)` when the
message converts to `text` and a response is passed. -/
theorem TodoAPIError_of_message (message response : JSVal) (statusCode : Nat) (text : String)
    (hmessage : errorMessage message = some text) (hresponse : response ≠ .undefined) :
    TodoAPIError message statusCode response =
      some (.todoAPIError text statusCode response) := by
  have hr : (match response with
      | .undefined => JSVal.null
      | r => r) = response := by
    cases response <;> simp at hresponse ⊢
  simp only [TodoAPIError, hmessage, hr]

/-- The body of the `end` handler for a status code outside 200..299 and a parsed
body other than `null`: the error is built from `message || "API Error"`, and a
message whose conversion throws ends in the catch block. -/
theorem onEnd_not_2xx (env : Env) (s : Nat) (body : String) (v : JSVal)
    (hp : (if body != "" then env.jsonParse body else some (.obj [])) = some v)
    (hs : ¬ (200 ≤ s ∧ s ≤ 299)) (hnull : v ≠ .null) (hundef : v ≠ .undefined) :
    onEnd env s body =
      match errorMessage ((v.get "message").or (.str "API Error")) with
      | some text => .error (.todoAPIError text s v)
      | none => .error (.todoAPIError "Invalid JSON response" s .null) := by
  have hc : (decide (s ≥ 200) && decide (s < 300)) = false := by
    by_cases h1 : s ≥ 200
    · have : ¬ s < 300 := by omega
      simp [h1, this]
    · simp [h1]
  have hget : v.get? "message" = some (v.get "message") := by
    cases v <;> simp [JSVal.get?] at hnull hundef ⊢
  simp only [onEnd, hp, hc, hget]
  cases hm : errorMessage ((v.get "message").or (.str "API Error")) with
  | none => simp [TodoAPIError, hm, rejectInvalidJson_eq]
  | some text => simp [TodoAPIError_of_message _ _ _ _ hm hundef]

/-- C2, amended: for every status code `s` and every response body that parses as
a JSON value `v` (the empty body counting as `{}`): if `200 ≤ s ≤ 299` the request
resolves with `v`; otherwise, for `v` other than `null`, it fails with a
`TodoAPIError` whose statusCode is `s`, whose response is `v`, and whose message
is "API Error" when `v.message` is absent or falsy, and the string form of
`v.message` when that field is truthy and converts to a string. -/
theorem response_classification (env : Env) (sdk : TodoSDK)
    (method endpoint : String) (data : JSVal) (s : Nat) (chunks : List String) (body : String)
    (v : JSVal)
    (hissued : (_makeRequest env sdk method endpoint data).requests ≠ [])
    (hanswer : ∀ req ∈ (_makeRequest env sdk method endpoint data).requests,
      env.exchange req = .response s chunks)
    (hbody : chunks.foldl (· ++ ·) "" = body)
    (hparse : if body = "" then v = .obj [] else env.jsonParse body = some v) :
    (200 ≤ s ∧ s ≤ 299 → (_makeRequest env sdk method endpoint data).outcome = .ok v) ∧
    (¬ (200 ≤ s ∧ s ≤ 299) → v ≠ .null → v ≠ .undefined →
      ((v.get "message").truthy = false →
        (_makeRequest env sdk method endpoint data).outcome =
          .error (.todoAPIError "API Error" s v)) ∧
      (∀ text, (v.get "message").truthy = true → (v.get "message").toStr? = some text →
        (_makeRequest env sdk method endpoint data).outcome =
          .error (.todoAPIError text s v))) := by
  have hout := makeRequest_outcome_of_response env sdk method endpoint data s chunks
    hissued hanswer
  rw [hbody] at hout
  have hp : (if body != "" then env.jsonParse body else some (.obj [])) = some v := by
    by_cases hb : body = ""
    · simp [hb] at hparse ⊢
      exact hparse.symm
    · simp [hb] at hparse ⊢
      exact hparse
  constructor
  · rintro ⟨h1, h2⟩
    have hc : (decide (s ≥ 200) && decide (s < 300)) = true := by
      have hlt : s < 300 := by omega
      simp [h1, hlt]
    rw [hout]
    simp only [onEnd, hp, hc, if_true]
  · intro hs hnull hundef
    rw [hout, onEnd_not_2xx env s body v hp hs hnull hundef]
    constructor
    · intro hfalsy
      have hm : errorMessage ((v.get "message").or (.str "API Error")) = some "API Error" := by
        simp [JSVal.or, hfalsy, errorMessage, JSVal.toStr?]
      simp only [hm]
    · intro text htruthy htext
      have hd : v.get "message" ≠ .undefined := by
        intro h
        rw [h] at htruthy
        simp [JSVal.truthy] at htruthy
      have hm : errorMessage ((v.get "message").or (.str "API Error")) = some text := by
        simp only [JSVal.or, htruthy, if_true]
        cases hmv : v.get "message" <;> simp only [hmv] at hd htext ⊢
        · exact absurd rfl hd
        all_goals simpa [errorMessage] using htext
      simp only [hm]

/-- Witness for the amended C2: status 404 with the body `{"message":"Not found"}`. -/
theorem response_classification_witness :
    (_makeRequest (sampleEnv (.response 404 ["\x7b\"message\":", "\"Not found\"\x7d"]))
        sampleSdk "GET" "/todos/999").outcome =
      .error (.todoAPIError "Not found" 404 (.obj [("message", .str "Not found")])) :=
  ((response_classification (sampleEnv (.response 404 ["\x7b\"message\":", "\"Not found\"\x7d"]))
    sampleSdk "GET" "/todos/999" .null 404 ["\x7b\"message\":", "\"Not found\"\x7d"]
    "\x7b\"message\":\"Not found\"\x7d" (.obj [("message", .str "Not found")])
    (List.ne_nil_of_length_pos (by decide)) (fun _ _ => rfl) rfl rfl).2
    (by decide) (by simp) (by simp)).2 "Not found" rfl rfl

/-- The catch-all of the `end` handler on the sample platform: with status 404,
the body `null` and the body `{"message":{"toString":1}}` (a message that
cannot be converted to a string) are both reported as "Invalid JSON response",
and a numeric message is reported in its string form. -/
theorem response_caught_examples :
    (_makeRequest (sampleEnv (.response 404 ["null"])) sampleSdk "GET" "/todos/1").outcome =
      .error (.todoAPIError "Invalid JSON response" 404 .null) ∧
    (_makeRequest (sampleEnv (.response 404 ["\x7b\"message\":\x7b\"toString\":1\x7d\x7d"]))
        sampleSdk "GET" "/todos/1").outcome =
      .error (.todoAPIError "Invalid JSON response" 404 .null) ∧
    onEnd (sampleEnv .timeout) 500 "\x7b\"message\":1e21\x7d" =
      .error (.todoAPIError "1e+21" 500 (.obj [("message", .num ⟨true, "1e+21"⟩)])) :=
  ⟨rfl, rfl, rfl⟩

/-! ### Construction -/

/-- C9, as stated, fails: `new TodoSDK("k", {baseUrl: ""})`.  A base address is
given (the empty string), yet the stored one is the default. -/
theorem constructor_falsy_baseUrl :
    JSVal.lookup "baseUrl" [("baseUrl", .str "")] = some (.str "") ∧
    constructor (.str "k") (.obj [("baseUrl", .str "")]) =
      .ok ⟨.str "k", .str "https://jsonplaceholder.typicode.com", .num 5000, .num 1⟩ ∧
    (.str "https://jsonplaceholder.typicode.com" : JSVal) ≠ .str "" := by
  refine ⟨rfl, rfl, ?_⟩
  simp

/-- C9, amended: for every apiKey and every options other than `null`, the
constructor stores apiKey verbatim ("test" when omitted), and stores each of
baseUrl, timeout and userId as the value given in options when that value is
truthy, and as its default ("https://jsonplaceholder.typicode.com", 5000, 1)
when it is omitted or falsy. -/
theorem construction_defaults (apiKey options : JSVal) (hoptions : options ≠ .null) :
    ∃ sdk, constructor apiKey options = .ok sdk ∧
      (apiKey = .undefined → sdk.apiKey = .str "test") ∧
      (apiKey ≠ .undefined → sdk.apiKey = apiKey) ∧
      ((options.get "baseUrl").truthy = true → sdk.baseUrl = options.get "baseUrl") ∧
      ((options.get "baseUrl").truthy = false →
        sdk.baseUrl = .str "https://jsonplaceholder.typicode.com") ∧
      ((options.get "timeout").truthy = true → sdk.timeout = options.get "timeout") ∧
      ((options.get "timeout").truthy = false → sdk.timeout = .num 5000) ∧
      ((options.get "userId").truthy = true → sdk.userId = options.get "userId") ∧
      ((options.get "userId").truthy = false → sdk.userId = .num 1) := by
  refine ⟨⟨(match apiKey with
      | .undefined => JSVal.str "test"
      | a => a),
    (options.get "baseUrl").or (.str "https://jsonplaceholder.typicode.com"),
    (options.get "timeout").or (.num 5000), (options.get "userId").or (.num 1)⟩, ?_, ?_⟩
  · cases options <;> cases apiKey <;>
      simp [constructor, JSVal.get?, JSVal.get, JSVal.lookup] at hoptions ⊢
  · refine ⟨?_, ?_, ?_, ?_, ?_, ?_, ?_, ?_⟩
    · intro h
      simp [h]
    · intro h
      cases apiKey <;> simp at h ⊢
    all_goals
      intro h
      simp [JSVal.or, h]

/-- Witness for the amended C9: the custom client of the test suite. -/
theorem construction_defaults_witness :
    ∃ sdk, constructor (.str "test-key") (.obj [("baseUrl", .str "https://custom.api.com"),
        ("timeout", .num 10000), ("userId", .num 1)]) = .ok sdk ∧
      sdk.apiKey = .str "test-key" ∧
      sdk.baseUrl = .str "https://custom.api.com" ∧
      sdk.timeout = .num 10000 ∧
      sdk.userId = .num 1 :=
  have ⟨sdk, h, _, hkey, hbase, _, htime, _, huser, _⟩ :=
    construction_defaults (.str "test-key") (.obj [("baseUrl", .str "https://custom.api.com"),
        ("timeout", .num 10000), ("userId", .num 1)]) (by simp)
  ⟨sdk, h, hkey (by simp), hbase rfl, htime rfl, huser rfl⟩

/-! ### Request headers -/

theorem startsWith_iff (t p : List Char) : startsWith t p = true ↔ p <+: t := by
  induction t generalizing p with
  | nil => cases p <;> simp [startsWith]
  | cons c t ih =>
    cases p with
    | nil => simp [startsWith]
    | cons d p =>
      simp only [startsWith, Bool.and_eq_true, beq_iff_eq, ih, List.cons_prefix_cons]
      constructor
      · rintro ⟨h1, h2⟩
        exact ⟨h1.symm, h2⟩
      · rintro ⟨h1, h2⟩
        exact ⟨h1.symm, h2⟩

/-- `containsChars t p` decides whether `p` is a contiguous part of `t`. -/
theorem containsChars_iff (t p : List Char) : containsChars t p = true ↔ p <:+: t := by
  induction t with
  | nil => simp [containsChars, startsWith_iff]
  | cons c t ih =>
    simp only [containsChars, Bool.or_eq_true, startsWith_iff, ih, List.infix_cons_iff]

/-- The requests issued by `_makeRequest`: method, payload and headers as a
function of the arguments. -/
theorem makeRequest_request (env : Env) (sdk : TodoSDK) (method endpoint : String)
    (data : JSVal) (req : HttpRequest)
    (h : req ∈ (_makeRequest env sdk method endpoint data).requests) :
    ∃ url found, env.parseURL endpoint sdk.baseUrl.toStr = some url ∧
      sdk.baseUrl.includes "jsonplaceholder" = some found ∧
      req.options.method = toUpperCase method ∧
      req.options.path = url.pathname ++ url.search ∧
      req.written = (if data.truthy then some (env.jsonStringify data) else none) ∧
      req.options.headers =
        [("Content-Type", .str "application/json"), ("User-Agent", .str "TodoSDK/1.0.0")] ++
        (if found == false then [("Authorization", .str ("Bearer " ++ sdk.apiKey.toStr))]
          else []) ++
        (if data.truthy then
          [("Content-Length", .num (JSNumber.ofNat (env.jsonStringify data).utf8ByteSize))]
          else []) := by
  unfold _makeRequest at h
  cases hu : env.parseURL endpoint sdk.baseUrl.toStr with
  | none => simp [hu, Run.throw] at h
  | some url =>
    cases hi : sdk.baseUrl.includes "jsonplaceholder" with
    | none => simp [hu, hi, Run.throw] at h
    | some found =>
      simp only [hu, hi, List.mem_singleton] at h
      subst h
      refine ⟨url, found, rfl, rfl, rfl, rfl, rfl, ?_⟩
      cases found <;> cases data.truthy <;> simp

/-- C8: every request built by `_makeRequest` carries Content-Type
"application/json" and User-Agent "TodoSDK/1.0.0"; it carries an Authorization
header exactly when the configured baseUrl does not contain "jsonplaceholder",
and the header is then "Bearer " followed by the stored apiKey. -/
theorem request_headers (env : Env) (sdk : TodoSDK) (method endpoint : String)
    (data : JSVal) (req : HttpRequest)
    (h : req ∈ (_makeRequest env sdk method endpoint data).requests) :
    JSVal.lookup "Content-Type" req.options.headers = some (.str "application/json") ∧
    JSVal.lookup "User-Agent" req.options.headers = some (.str "TodoSDK/1.0.0") ∧
    ((JSVal.lookup "Authorization" req.options.headers).isSome = true ↔
      sdk.baseUrl.includes "jsonplaceholder" = some false) ∧
    (∀ base, sdk.baseUrl = .str base →
      ((JSVal.lookup "Authorization" req.options.headers).isSome = true ↔
        ¬ "jsonplaceholder".toList <:+: base.toList)) ∧
    (∀ value, JSVal.lookup "Authorization" req.options.headers = some value →
      value = .str ("Bearer " ++ sdk.apiKey.toStr)) ∧
    (∀ key value, sdk.apiKey = .str key →
      JSVal.lookup "Authorization" req.options.headers = some value →
      value = .str ("Bearer " ++ key)) := by
  obtain ⟨url, found, _, hfound, _, _, _, hheaders⟩ :=
    makeRequest_request env sdk method endpoint data req h
  have hauth : JSVal.lookup "Authorization" req.options.headers =
      if found == false then some (.str ("Bearer " ++ sdk.apiKey.toStr)) else none := by
    rw [hheaders]
    cases found <;> cases data.truthy <;> simp [JSVal.lookup]
  have hiff : (JSVal.lookup "Authorization" req.options.headers).isSome = true ↔
      sdk.baseUrl.includes "jsonplaceholder" = some false := by
    rw [hauth, hfound]
    cases found <;> simp
  have hvalue : ∀ value, JSVal.lookup "Authorization" req.options.headers = some value →
      value = .str ("Bearer " ++ sdk.apiKey.toStr) := by
    intro value hv
    rw [hauth] at hv
    cases found <;> simp at hv
    exact hv.symm
  refine ⟨?_, ?_, hiff, ?_, hvalue, ?_⟩
  · rw [hheaders]
    simp [JSVal.lookup]
  · rw [hheaders]
    simp [JSVal.lookup]
  · intro base hbase
    rw [hiff, hbase]
    simp only [JSVal.includes, Option.some.injEq]
    rw [← containsChars_iff]
    simp
  · intro key value hkey hv
    have := hvalue value hv
    rw [hkey] at this
    simpa [toStr_str] using this

/-- Witness for C8: a `GET /todos` of the client of `http://localhost:3000` with
the apiKey "secret". -/
theorem request_headers_witness :
    JSVal.lookup "Content-Type" [("Content-Type", JSVal.str "application/json"),
      ("User-Agent", .str "TodoSDK/1.0.0"), ("Authorization", .str "Bearer secret")] =
      some (.str "application/json") ∧
    JSVal.lookup "User-Agent" [("Content-Type", JSVal.str "application/json"),
      ("User-Agent", .str "TodoSDK/1.0.0"), ("Authorization", .str "Bearer secret")] =
      some (.str "TodoSDK/1.0.0") ∧
    (JSVal.lookup "Authorization" [("Content-Type", JSVal.str "application/json"),
      ("User-Agent", .str "TodoSDK/1.0.0"), ("Authorization", .str "Bearer secret")]).isSome =
      true :=
  have h := request_headers (sampleEnv .timeout) localSdk "GET" "/todos" .null
    ⟨false, ⟨"localhost", .str "3000", "/todos", "GET",
      [("Content-Type", .str "application/json"), ("User-Agent", .str "TodoSDK/1.0.0"),
        ("Authorization", .str "Bearer secret")], .num 5000⟩, none⟩
    (List.Mem.head _)
  ⟨h.1, h.2.1, h.2.2.1.mpr rfl⟩

/-! ### Request bodies -/

theorem isDefined_iff (v : JSVal) : v.isDefined = true ↔ v ≠ .undefined := by
  cases v <;> simp [JSVal.isDefined]

/-- The object `filteredData` holds the supported keys whose value is defined,
in the order title, completed, userId, each with the value of `updateData`. -/
theorem filteredData_eq (updateData : JSVal) :
    filteredData updateData =
      .obj ((["title", "completed", "userId"].filter
        fun k => (updateData.get k).isDefined).map fun k => (k, updateData.get k)) := by
  unfold filteredData
  cases h1 : (updateData.get "title").isDefined <;>
    cases h2 : (updateData.get "completed").isDefined <;>
    cases h3 : (updateData.get "userId").isDefined <;>
    simp [List.filter, h1, h2, h3]

/-- A run of `_makeRequest` hands at most one request to `httpModule.request`,
and exactly one when the base address resolves and is a string or an array. -/
theorem makeRequest_length (env : Env) (sdk : TodoSDK) (method endpoint : String)
    (data : JSVal) :
    (_makeRequest env sdk method endpoint data).requests.length ≤ 1 ∧
    ((env.parseURL endpoint sdk.baseUrl.toStr).isSome = true →
      (sdk.baseUrl.includes "jsonplaceholder").isSome = true →
      (_makeRequest env sdk method endpoint data).requests.length = 1) := by
  unfold _makeRequest
  cases hu : env.parseURL endpoint sdk.baseUrl.toStr with
  | none => simp [Run.throw]
  | some url =>
    cases hi : sdk.baseUrl.includes "jsonplaceholder" with
    | none => simp [Run.throw]
    | some found => simp

/-- A run of `_makeRequest` never fails with a plain `Error`. -/
theorem makeRequest_no_plain_error (env : Env) (sdk : TodoSDK) (method endpoint : String)
    (data : JSVal) (message : String) :
    (_makeRequest env sdk method endpoint data).outcome ≠ .error (.error message) := by
  unfold _makeRequest
  cases hu : env.parseURL endpoint sdk.baseUrl.toStr with
  | none => simp [Run.throw]
  | some url =>
    cases hi : sdk.baseUrl.includes "jsonplaceholder" with
    | none => simp [Run.throw]
    | some found =>
      simp only
      generalize env.exchange _ = event
      cases event with
      | response statusCode chunks =>
        simp only [settle, onEnd, rejectInvalidJson_eq]
        split
        · simp
        · split
          · simp
          · split
            · simp
            · split
              · simp
              · rename_i e he
                simp only [TodoAPIError] at he
                split at he
                · simp at he
                · simp only [Option.some.injEq] at he
                  subst he
                  simp
      | error m => simp [settle, NetworkError]
      | timeout => simp [settle, NetworkError]

/-- C4: for a truthy id and non-empty update data, `updateTodo` issues
`PUT /todos/id` with a body whose keys are exactly those of title, completed,
userId whose value in updateData is not `undefined`, each once and with
updateData's value unchanged; `{title: "x", completed: undefined, extra: 1}` is
sent as `{title: "x"}`. -/
theorem update_body_filter (env : Env) (sdk : TodoSDK) (id updateData : JSVal)
    (hid : id.truthy = true) (hdata : updateData.truthy = true)
    (hkeys : updateData.keys ≠ []) :
    ∃ fields : List (String × JSVal),
      updateTodo env sdk id updateData =
        _makeRequest env sdk "PUT" ("/todos/" ++ id.toStr) (.obj fields) ∧
      (∀ k, k ∈ fields.map Prod.fst ↔
        k ∈ ["title", "completed", "userId"] ∧ updateData.get k ≠ .undefined) ∧
      (∀ k v, (k, v) ∈ fields → v = updateData.get k) ∧
      (fields.map Prod.fst).Nodup ∧
      (∀ req ∈ (updateTodo env sdk id updateData).requests,
        req.options.method = "PUT" ∧ req.written = some (env.jsonStringify (.obj fields))) ∧
      updateTodo env sdk id
          (.obj [("title", .str "x"), ("completed", .undefined), ("extra", .num 1)]) =
        _makeRequest env sdk "PUT" ("/todos/" ++ id.toStr) (.obj [("title", .str "x")]) := by
  have hlen : (updateData.keys.length == 0) = false := by
    cases hk : updateData.keys with
    | nil => exact absurd hk hkeys
    | cons a l => simp
  have hcall : updateTodo env sdk id updateData =
      _makeRequest env sdk "PUT" ("/todos/" ++ id.toStr) (filteredData updateData) := by
    simp [updateTodo, hid, hdata, hlen]
  rw [filteredData_eq] at hcall
  refine ⟨_, hcall, ?_, ?_, ?_, ?_, ?_⟩
  · intro k
    simp only [List.map_map, List.mem_map, List.mem_filter, Function.comp, isDefined_iff]
    constructor
    · rintro ⟨a, ⟨ha, hd⟩, rfl⟩
      exact ⟨ha, hd⟩
    · rintro ⟨ha, hd⟩
      exact ⟨k, ⟨ha, hd⟩, rfl⟩
  · intro k v hkv
    simp only [List.mem_map, List.mem_filter] at hkv
    obtain ⟨a, _, ha⟩ := hkv
    cases ha
    rfl
  · have hmap : (((["title", "completed", "userId"].filter
        fun k => (updateData.get k).isDefined).map fun k => (k, updateData.get k)).map
        Prod.fst) = ["title", "completed", "userId"].filter
          fun k => (updateData.get k).isDefined := by
      rw [List.map_map]
      exact List.map_id _
    rw [hmap]
    exact List.Nodup.filter _ (by decide)
  · intro req hreq
    rw [hcall] at hreq
    obtain ⟨_, _, _, _, hm, _, hw, _⟩ := makeRequest_request env sdk "PUT" _ _ req hreq
    exact ⟨hm, by simpa [JSVal.truthy] using hw⟩
  · rw [updateTodo, hid]
    rfl

/-- Witness for C4: `updateTodo(1, {title: "x", completed: false, userId: 0})` on the
sample client keeps the explicit `false` and `0`. -/
theorem update_body_filter_witness :
    ∃ fields : List (String × JSVal),
      updateTodo (sampleEnv .timeout) sampleSdk (.num 1)
          (.obj [("title", .str "x"), ("completed", .bool false), ("userId", .num 0)]) =
        _makeRequest (sampleEnv .timeout) sampleSdk "PUT" "/todos/1" (.obj fields) ∧
      (∀ k, k ∈ fields.map Prod.fst ↔
        k ∈ ["title", "completed", "userId"] ∧
          (JSVal.obj [("title", .str "x"), ("completed", .bool false),
            ("userId", .num 0)]).get k ≠ .undefined) :=
  have ⟨fields, h1, h2, _⟩ := update_body_filter (sampleEnv .timeout) sampleSdk (.num 1)
    (.obj [("title", .str "x"), ("completed", .bool false), ("userId", .num 0)])
    rfl rfl (by simp [JSVal.keys])
  ⟨fields, h1, h2⟩

/-- C5: for todoData with a truthy title, `createTodo` issues one `POST /todos`
whose body is exactly title, completed (or `false`) and userId (or the client's
default), and nothing else of todoData. -/
theorem create_body_shape (env : Env) (sdk : TodoSDK) (todoData : JSVal)
    (htitle : (todoData.get "title").truthy = true) :
    createTodo env sdk todoData =
      _makeRequest env sdk "POST" "/todos"
        (.obj [("title", todoData.get "title"),
          ("completed", if (todoData.get "completed").truthy then todoData.get "completed"
            else .bool false),
          ("userId", if (todoData.get "userId").truthy then todoData.get "userId"
            else sdk.userId)]) ∧
    (createTodo env sdk todoData).requests.length ≤ 1 ∧
    ((env.parseURL "/todos" sdk.baseUrl.toStr).isSome = true →
      (sdk.baseUrl.includes "jsonplaceholder").isSome = true →
      (createTodo env sdk todoData).requests.length = 1) ∧
    (∀ req ∈ (createTodo env sdk todoData).requests,
      req.options.method = "POST" ∧
      req.written = some (env.jsonStringify
        (.obj [("title", todoData.get "title"),
          ("completed", if (todoData.get "completed").truthy then todoData.get "completed"
            else .bool false),
          ("userId", if (todoData.get "userId").truthy then todoData.get "userId"
            else sdk.userId)]))) := by
  have hdata : todoData.truthy = true := by
    cases todoData <;> simp [JSVal.get, JSVal.truthy] at htitle ⊢
  have hcall : createTodo env sdk todoData =
      _makeRequest env sdk "POST" "/todos"
        (.obj [("title", todoData.get "title"),
          ("completed", if (todoData.get "completed").truthy then todoData.get "completed"
            else .bool false),
          ("userId", if (todoData.get "userId").truthy then todoData.get "userId"
            else sdk.userId)]) := by
    simp [createTodo, hdata, htitle, JSVal.or]
  refine ⟨hcall, ?_, ?_, ?_⟩
  · rw [hcall]
    exact (makeRequest_length env sdk "POST" "/todos" _).1
  · rw [hcall]
    exact (makeRequest_length env sdk "POST" "/todos" _).2
  · intro req hreq
    rw [hcall] at hreq
    obtain ⟨_, _, _, _, hm, _, hw, _⟩ := makeRequest_request env sdk "POST" _ _ req hreq
    exact ⟨hm, by simpa [JSVal.truthy] using hw⟩

/-- Witness for C5: `createTodo({title: "Test todo", note: "n"})` on the sample
client issues one request, with the defaults filled in and `note` left out. -/
theorem create_body_shape_witness :
    createTodo (sampleEnv .timeout) sampleSdk
        (.obj [("title", .str "Test todo"), ("note", .str "n")]) =
      _makeRequest (sampleEnv .timeout) sampleSdk "POST" "/todos"
        (.obj [("title", .str "Test todo"), ("completed", .bool false), ("userId", .num 1)]) ∧
    (createTodo (sampleEnv .timeout) sampleSdk
        (.obj [("title", .str "Test todo"), ("note", .str "n")])).requests.length = 1 :=
  have h := create_body_shape (sampleEnv .timeout) sampleSdk
    (.obj [("title", .str "Test todo"), ("note", .str "n")]) rfl
  ⟨h.1, h.2.2.1 rfl rfl⟩

/-- C10: update data that passes the non-empty check need not give a non-empty
body.  With id 1 and update data `{extra: 1}` or `{title: undefined}` (truthy, with
one key), `updateTodo` and `patchTodo` do not fail with "Update data is required";
they issue `PUT` and `PATCH /todos/1` with the empty object as body. -/
theorem empty_body_passes_validation (env : Env) (sdk : TodoSDK) :
    (JSVal.num 1).truthy = true ∧
    (JSVal.obj [("extra", .num 1)]).truthy = true ∧
    (JSVal.obj [("extra", .num 1)]).keys = ["extra"] ∧
    (JSVal.obj [("title", .undefined)]).truthy = true ∧
    (JSVal.obj [("title", .undefined)]).keys = ["title"] ∧
    updateTodo env sdk (.num 1) (.obj [("extra", .num 1)]) =
      _makeRequest env sdk "PUT" "/todos/1" (.obj []) ∧
    patchTodo env sdk (.num 1) (.obj [("extra", .num 1)]) =
      _makeRequest env sdk "PATCH" "/todos/1" (.obj []) ∧
    updateTodo env sdk (.num 1) (.obj [("title", .undefined)]) =
      _makeRequest env sdk "PUT" "/todos/1" (.obj []) ∧
    patchTodo env sdk (.num 1) (.obj [("title", .undefined)]) =
      _makeRequest env sdk "PATCH" "/todos/1" (.obj []) ∧
    (updateTodo env sdk (.num 1) (.obj [("extra", .num 1)])).outcome ≠
      .error (.error "Update data is required") ∧
    (patchTodo env sdk (.num 1) (.obj [("extra", .num 1)])).outcome ≠
      .error (.error "Update data is required") ∧
    (∀ req ∈ (updateTodo env sdk (.num 1) (.obj [("extra", .num 1)])).requests,
      req.options.method = "PUT" ∧ req.written = some (env.jsonStringify (.obj []))) ∧
    (∀ req ∈ (patchTodo env sdk (.num 1) (.obj [("extra", .num 1)])).requests,
      req.options.method = "PATCH" ∧ req.written = some (env.jsonStringify (.obj []))) := by
  have hput : updateTodo env sdk (.num 1) (.obj [("extra", .num 1)]) =
      _makeRequest env sdk "PUT" "/todos/1" (.obj []) := rfl
  have hpatch : patchTodo env sdk (.num 1) (.obj [("extra", .num 1)]) =
      _makeRequest env sdk "PATCH" "/todos/1" (.obj []) := rfl
  refine ⟨rfl, rfl, rfl, rfl, rfl, hput, hpatch, rfl, rfl, ?_, ?_, ?_, ?_⟩
  · rw [hput]
    exact makeRequest_no_plain_error env sdk _ _ _ _
  · rw [hpatch]
    exact makeRequest_no_plain_error env sdk _ _ _ _
  · intro req hreq
    rw [hput] at hreq
    obtain ⟨_, _, _, _, hm, _, hw, _⟩ := makeRequest_request env sdk "PUT" _ _ req hreq
    exact ⟨hm, by simpa [JSVal.truthy] using hw⟩
  · intro req hreq
    rw [hpatch] at hreq
    obtain ⟨_, _, _, _, hm, _, hw, _⟩ := makeRequest_request env sdk "PATCH" _ _ req hreq
    exact ⟨hm, by simpa [JSVal.truthy] using hw⟩

/-- Witness for C10: on the sample client `updateTodo(1, {extra: 1})` hands one
request to the transport, a `PUT /todos/1` whose payload is `{}`. -/
theorem empty_body_passes_validation_witness :
    (updateTodo (sampleEnv .timeout) sampleSdk (.num 1)
        (.obj [("extra", .num 1)])).requests.map
      (fun req => (req.options.method, req.options.path, req.written)) =
      [("PUT", "/todos/1", some "\x7b\x7d")] ∧
    (updateTodo (sampleEnv .timeout) sampleSdk (.num 1) (.obj [("extra", .num 1)])).outcome ≠
      .error (.error "Update data is required") :=
  ⟨rfl, (empty_body_passes_validation (sampleEnv .timeout) sampleSdk).2.2.2.2.2.2.2.2.2.1⟩

/-! ### The query string of `getTodos` -/

theorem intercalate_go_length (sep : String) (parts : List String) (acc : String) :
    acc.length ≤ (String.intercalate.go acc sep parts).length := by
  induction parts generalizing acc with
  | nil => simp [String.intercalate.go]
  | cons a rest ih =>
    simp only [String.intercalate.go]
    refine le_trans ?_ (ih _)
    simp only [String.length_append]
    omega

/-- A `URLSearchParams` object with at least one pair has a non-empty string form. -/
theorem toString_ne_empty (p : String × String) (q : URLSearchParams) :
    URLSearchParams.toString (p :: q) ≠ "" := by
  intro h
  have hlen := intercalate_go_length "&"
    (q.map fun p => formEncode p.1 ++ "=" ++ formEncode p.2)
    (formEncode p.1 ++ "=" ++ formEncode p.2)
  have h0 : (URLSearchParams.toString (p :: q)).length = 0 := by
    rw [h]
    rfl
  simp only [URLSearchParams.toString, List.map_cons, String.intercalate] at h0
  rw [h0] at hlen
  simp only [String.length_append] at hlen
  have : "=".length = 1 := rfl
  omega

/-- The pairs appended by `getTodos`, one optional pair per query key. -/
theorem getTodosQuery_eq (options : JSVal) :
    getTodosQuery options =
      (if (options.get "userId").truthy then [("userId", (options.get "userId").toStr)]
        else []) ++
      (if (options.get "completed").isDefined then
        [("completed", (options.get "completed").toStr)] else []) ++
      (if ((options.get "limit").or (options.get "_limit")).truthy then
        [("_limit", ((options.get "limit").or (options.get "_limit")).toStr)] else []) ++
      (if ((options.get "start").or (options.get "_start")).truthy then
        [("_start", ((options.get "start").or (options.get "_start")).toStr)] else []) := by
  unfold getTodosQuery
  cases (options.get "userId").truthy <;>
    cases (options.get "completed").isDefined <;>
    cases ((options.get "limit").or (options.get "_limit")).truthy <;>
    cases ((options.get "start").or (options.get "_start")).truthy <;>
    simp [URLSearchParams.append]

/-- The endpoint is `/todos`, followed by `?` and the query string when there is
at least one pair. -/
theorem getTodosEndpoint_eq (options : JSVal) :
    getTodosEndpoint options =
      if getTodosQuery options = [] then "/todos"
      else "/todos?" ++ (getTodosQuery options).toString := by
  unfold getTodosEndpoint
  cases hq : getTodosQuery options with
  | nil => simp [URLSearchParams.toString, String.intercalate]
  | cons p q =>
    have hne := toString_ne_empty p q
    simp only [bne_iff_ne, ne_eq, hne, not_false_eq_true, if_true, reduceCtorEq, if_false]
    rw [← String.append_assoc]
    rfl

theorem getTodos_obj (env : Env) (sdk : TodoSDK) (fields : List (String × JSVal)) :
    getTodos env sdk (.obj fields) =
      _makeRequest env sdk "GET" (getTodosEndpoint (.obj fields)) := by
  simp [getTodos, JSVal.get?]

theorem truthy_ne_undefined (v : JSVal) (h : v.truthy = true) : v ≠ .undefined := by
  intro hv
  rw [hv] at h
  simp [JSVal.truthy] at h

theorem or_truthy_present (a b : JSVal) (h : (a.or b).truthy = true) :
    a ≠ .undefined ∨ b ≠ .undefined := by
  unfold JSVal.or at h
  by_cases ha : a.truthy = true
  · exact Or.inl (truthy_ne_undefined a ha)
  · rw [if_neg ha] at h
    exact Or.inr (truthy_ne_undefined b h)

/-- C7: for every options object, `getTodos` requests `/todos` followed by a query
string made of pairs whose names are among userId, completed, _limit, _start, each
at most once and in that order; a name occurs only if options holds a value for
it (for _limit and _start: for it or its synonym); a boolean completed is written
"true" or "false"; with none of the keys present the path is exactly `/todos`. -/
theorem query_construction (env : Env) (sdk : TodoSDK) (fields : List (String × JSVal)) :
    ∃ query : URLSearchParams,
      getTodos env sdk (.obj fields) =
        _makeRequest env sdk "GET"
          (if query = [] then "/todos" else "/todos?" ++ query.toString) ∧
      (query.map Prod.fst).Sublist ["userId", "completed", "_limit", "_start"] ∧
      (∀ k v, (k, v) ∈ query →
        (k = "userId" ∧ (JSVal.obj fields).get "userId" ≠ .undefined ∧
          v = ((JSVal.obj fields).get "userId").toStr) ∨
        (k = "completed" ∧ (JSVal.obj fields).get "completed" ≠ .undefined ∧
          v = ((JSVal.obj fields).get "completed").toStr) ∨
        (k = "_limit" ∧ ((JSVal.obj fields).get "limit" ≠ .undefined ∨
          (JSVal.obj fields).get "_limit" ≠ .undefined)) ∨
        (k = "_start" ∧ ((JSVal.obj fields).get "start" ≠ .undefined ∨
          (JSVal.obj fields).get "_start" ≠ .undefined))) ∧
      ("userId" ∈ query.map Prod.fst ↔ ((JSVal.obj fields).get "userId").truthy = true) ∧
      ("completed" ∈ query.map Prod.fst ↔ (JSVal.obj fields).get "completed" ≠ .undefined) ∧
      ("_limit" ∈ query.map Prod.fst ↔ ((JSVal.obj fields).get "limit").truthy = true ∨
        ((JSVal.obj fields).get "_limit").truthy = true) ∧
      ("_start" ∈ query.map Prod.fst ↔ ((JSVal.obj fields).get "start").truthy = true ∨
        ((JSVal.obj fields).get "_start").truthy = true) ∧
      (∀ b : Bool, (JSVal.obj fields).get "completed" = .bool b →
        ("completed", if b then "true" else "false") ∈ query ∧
        formEncode (if b then "true" else "false") = (if b then "true" else "false")) ∧
      ((JSVal.obj fields).get "userId" = .undefined →
        (JSVal.obj fields).get "completed" = .undefined →
        (JSVal.obj fields).get "limit" = .undefined →
        (JSVal.obj fields).get "_limit" = .undefined →
        (JSVal.obj fields).get "start" = .undefined →
        (JSVal.obj fields).get "_start" = .undefined →
        query = [] ∧ getTodos env sdk (.obj fields) = _makeRequest env sdk "GET" "/todos") := by
  have hor : ∀ a b : JSVal, (a.or b).truthy = true ↔ a.truthy = true ∨ b.truthy = true := by
    intro a b
    unfold JSVal.or
    by_cases ha : a.truthy = true <;> simp [ha]
  have hnames : (getTodosQuery (.obj fields)).map Prod.fst =
      ["userId", "completed", "_limit", "_start"].filter fun k =>
        if k = "userId" then ((JSVal.obj fields).get "userId").truthy
        else if k = "completed" then ((JSVal.obj fields).get "completed").isDefined
        else if k = "_limit" then
          (((JSVal.obj fields).get "limit").or ((JSVal.obj fields).get "_limit")).truthy
        else (((JSVal.obj fields).get "start").or ((JSVal.obj fields).get "_start")).truthy := by
    rw [getTodosQuery_eq]
    cases ((JSVal.obj fields).get "userId").truthy <;>
      cases ((JSVal.obj fields).get "completed").isDefined <;>
      cases (((JSVal.obj fields).get "limit").or ((JSVal.obj fields).get "_limit")).truthy <;>
      cases (((JSVal.obj fields).get "start").or ((JSVal.obj fields).get "_start")).truthy <;>
      simp [List.filter]
  refine ⟨getTodosQuery (.obj fields), ?_, ?_, ?_, ?_, ?_, ?_, ?_, ?_, ?_⟩
  · rw [getTodos_obj, getTodosEndpoint_eq]
  · rw [getTodosQuery_eq]
    cases ((JSVal.obj fields).get "userId").truthy <;>
      cases ((JSVal.obj fields).get "completed").isDefined <;>
      cases (((JSVal.obj fields).get "limit").or ((JSVal.obj fields).get "_limit")).truthy <;>
      cases (((JSVal.obj fields).get "start").or ((JSVal.obj fields).get "_start")).truthy <;>
      simp
  · intro k v hkv
    rw [getTodosQuery_eq] at hkv
    simp only [List.mem_append] at hkv
    rcases hkv with ((hkv | hkv) | hkv) | hkv
    · by_cases h : ((JSVal.obj fields).get "userId").truthy = true
      · simp only [h, if_true, List.mem_singleton, Prod.mk.injEq] at hkv
        exact Or.inl ⟨hkv.1, truthy_ne_undefined _ h, hkv.2⟩
      · simp [h] at hkv
    · by_cases h : ((JSVal.obj fields).get "completed").isDefined = true
      · simp only [h, if_true, List.mem_singleton, Prod.mk.injEq] at hkv
        exact Or.inr (Or.inl ⟨hkv.1, (isDefined_iff _).mp h, hkv.2⟩)
      · simp [h] at hkv
    · by_cases h : (((JSVal.obj fields).get "limit").or
          ((JSVal.obj fields).get "_limit")).truthy = true
      · simp only [h, if_true, List.mem_singleton, Prod.mk.injEq] at hkv
        exact Or.inr (Or.inr (Or.inl ⟨hkv.1, or_truthy_present _ _ h⟩))
      · simp [h] at hkv
    · by_cases h : (((JSVal.obj fields).get "start").or
          ((JSVal.obj fields).get "_start")).truthy = true
      · simp only [h, if_true, List.mem_singleton, Prod.mk.injEq] at hkv
        exact Or.inr (Or.inr (Or.inr ⟨hkv.1, or_truthy_present _ _ h⟩))
      · simp [h] at hkv
  · rw [hnames]
    simp [List.mem_filter]
  · rw [hnames]
    simp [List.mem_filter, isDefined_iff]
  · rw [hnames]
    simp [List.mem_filter, hor]
  · rw [hnames]
    simp [List.mem_filter, hor]
  · intro b hb
    constructor
    · rw [getTodosQuery_eq, hb]
      cases b <;> simp [JSVal.isDefined, toStr_bool]
    · cases b <;> rfl
  · intro h1 h2 h3 h4 h5 h6
    have hq : getTodosQuery (.obj fields) = [] := by
      rw [getTodosQuery_eq, h1, h2, h3, h4, h5, h6]
      simp [JSVal.truthy, JSVal.isDefined, JSVal.or]
    refine ⟨hq, ?_⟩
    rw [getTodos_obj, getTodosEndpoint_eq, hq]
    rfl

/-- Witness for C7: `getTodos({completed: false, limit: 5, userId: 2, extra: 9})`
and `getTodos({extra: 9})` on the sample client. -/
theorem query_construction_witness :
    getTodosEndpoint (.obj [("completed", .bool false), ("limit", .num 5), ("userId", .num 2),
      ("extra", .num 9)]) = "/todos?userId=2&completed=false&_limit=5" ∧
    getTodos (sampleEnv .timeout) sampleSdk (.obj [("extra", .num 9)]) =
      _makeRequest (sampleEnv .timeout) sampleSdk "GET" "/todos" :=
  have ⟨_, _, _, _, _, _, _, _, _, h⟩ :=
    query_construction (sampleEnv .timeout) sampleSdk [("extra", .num 9)]
  ⟨rfl, (h rfl rfl rfl rfl rfl rfl).2⟩

/-- C6, as stated, fails: `getTodos({limit: 0})` requests `/todos` with no query
string, and `getTodos({limit: 0, _limit: 5})` sends the value of `_limit`. -/
theorem limit_zero_is_dropped :
    getTodos (sampleEnv .timeout) sampleSdk (.obj [("limit", .num 0)]) =
      _makeRequest (sampleEnv .timeout) sampleSdk "GET" "/todos" ∧
    getTodosEndpoint (.obj [("limit", .num 0)]) = "/todos" ∧
    getTodosEndpoint (.obj [("limit", .num 0)]) ≠ "/todos?_limit=0" ∧
    getTodosEndpoint (.obj [("limit", .num 0), ("_limit", .num 5)]) = "/todos?_limit=5" ∧
    getTodosEndpoint (.obj [("limit", .num 0), ("_limit", .num 5)]) ≠ "/todos?_limit=0" := by
  refine ⟨rfl, rfl, by decide, rfl, by decide⟩

/-- C6, amended: for every truthy value `n` that converts to a string,
`getTodos({limit: n})` and `getTodos({_limit: n})` both request the query string
`_limit=n` (n in its string form, form-encoded); for every falsy `n` both request
`/todos` with no query string.  For every options object, the `_limit` parameter
occurs once and carries the value of limit when limit is truthy, it carries the
value of _limit when limit is falsy and _limit is truthy, and it is absent when
both are falsy. -/
theorem limit_synonyms (env : Env) (sdk : TodoSDK) (n : JSVal)
    (fields : List (String × JSVal)) :
    (n.truthy = true → ∀ text, n.toStr? = some text →
      getTodos env sdk (.obj [("limit", n)]) =
        _makeRequest env sdk "GET" ("/todos?_limit=" ++ formEncode text) ∧
      getTodos env sdk (.obj [("_limit", n)]) =
        _makeRequest env sdk "GET" ("/todos?_limit=" ++ formEncode text)) ∧
    (n.truthy = false →
      getTodos env sdk (.obj [("limit", n)]) = _makeRequest env sdk "GET" "/todos" ∧
      getTodos env sdk (.obj [("_limit", n)]) = _makeRequest env sdk "GET" "/todos") ∧
    (∀ text, ((JSVal.obj fields).get "limit").truthy = true →
      ((JSVal.obj fields).get "limit").toStr? = some text →
      (getTodosQuery (.obj fields)).filter (fun p => p.1 == "_limit") = [("_limit", text)]) ∧
    (∀ text, ((JSVal.obj fields).get "limit").truthy = false →
      ((JSVal.obj fields).get "_limit").truthy = true →
      ((JSVal.obj fields).get "_limit").toStr? = some text →
      (getTodosQuery (.obj fields)).filter (fun p => p.1 == "_limit") = [("_limit", text)]) ∧
    (((JSVal.obj fields).get "limit").truthy = false →
      ((JSVal.obj fields).get "_limit").truthy = false →
      (getTodosQuery (.obj fields)).filter (fun p => p.1 == "_limit") = []) := by
  have hone : ∀ value : String,
      (if ([("_limit", value)] : URLSearchParams) = [] then "/todos"
        else "/todos?" ++ URLSearchParams.toString [("_limit", value)]) =
      "/todos?_limit=" ++ formEncode value := by
    intro value
    have h1 : URLSearchParams.toString [("_limit", value)] =
        "_limit=" ++ formEncode value := rfl
    rw [if_neg (by simp), h1, ← String.append_assoc]
    rfl
  have hfilter : ∀ (o : JSVal) (value : JSVal),
      ((o.get "limit").or (o.get "_limit")) = value → value.truthy = true →
      (getTodosQuery o).filter (fun p => p.1 == "_limit") = [("_limit", value.toStr)] := by
    intro o value hv ht
    rw [getTodosQuery_eq, hv, ht]
    cases (o.get "userId").truthy <;> cases (o.get "completed").isDefined <;>
      cases ((o.get "start").or (o.get "_start")).truthy <;>
      simp [List.filter]
  have hnone : ∀ o : JSVal, ((o.get "limit").or (o.get "_limit")).truthy = false →
      (getTodosQuery o).filter (fun p => p.1 == "_limit") = [] := by
    intro o ht
    rw [getTodosQuery_eq, ht]
    cases (o.get "userId").truthy <;> cases (o.get "completed").isDefined <;>
      cases ((o.get "start").or (o.get "_start")).truthy <;>
      simp [List.filter]
  have hundef : JSVal.undefined.truthy = false := rfl
  have hundef2 : JSVal.undefined.isDefined = false := rfl
  have hq : ∀ k, (k = "limit" ∨ k = "_limit") →
      getTodosQuery (.obj [(k, n)]) = if n.truthy then [("_limit", n.toStr)] else [] := by
    intro k hk
    rw [getTodosQuery_eq]
    rcases hk with rfl | rfl
    · have g1 : (JSVal.obj [("limit", n)]).get "userId" = .undefined := rfl
      have g2 : (JSVal.obj [("limit", n)]).get "completed" = .undefined := rfl
      have g3 : (JSVal.obj [("limit", n)]).get "limit" = n := rfl
      have g4 : (JSVal.obj [("limit", n)]).get "_limit" = .undefined := rfl
      have g5 : (JSVal.obj [("limit", n)]).get "start" = .undefined := rfl
      have g6 : (JSVal.obj [("limit", n)]).get "_start" = .undefined := rfl
      rw [g1, g2, g3, g4, g5, g6]
      cases hn : n.truthy <;> simp [JSVal.or, hn, hundef, hundef2]
    · have g1 : (JSVal.obj [("_limit", n)]).get "userId" = .undefined := rfl
      have g2 : (JSVal.obj [("_limit", n)]).get "completed" = .undefined := rfl
      have g3 : (JSVal.obj [("_limit", n)]).get "limit" = .undefined := rfl
      have g4 : (JSVal.obj [("_limit", n)]).get "_limit" = n := rfl
      have g5 : (JSVal.obj [("_limit", n)]).get "start" = .undefined := rfl
      have g6 : (JSVal.obj [("_limit", n)]).get "_start" = .undefined := rfl
      rw [g1, g2, g3, g4, g5, g6]
      cases hn : n.truthy <;> simp [JSVal.or, hn, hundef, hundef2]
  refine ⟨?_, ?_, ?_, ?_, ?_⟩
  · intro hn text htext
    have ht := toStr_of_toStr? n text htext
    constructor
    · rw [getTodos_obj, getTodosEndpoint_eq, hq "limit" (Or.inl rfl), hn, if_pos rfl, ht, hone]
    · rw [getTodos_obj, getTodosEndpoint_eq, hq "_limit" (Or.inr rfl), hn, if_pos rfl, ht, hone]
  · intro hn
    constructor
    · rw [getTodos_obj, getTodosEndpoint_eq, hq "limit" (Or.inl rfl), hn]
      rfl
    · rw [getTodos_obj, getTodosEndpoint_eq, hq "_limit" (Or.inr rfl), hn]
      rfl
  · intro text h htext
    rw [hfilter _ _ (by simp [JSVal.or, h]) h, toStr_of_toStr? _ text htext]
  · intro text h1 h2 htext
    rw [hfilter _ _ (by simp [JSVal.or, h1]) h2, toStr_of_toStr? _ text htext]
  · intro h1 h2
    exact hnone _ (by simp [JSVal.or, h1, h2])

/-- Witness for the amended C6: `limit: 5`, `_limit: 5`, the number `1e21`, a
falsy `limit: null`, and both keys at once. -/
theorem limit_synonyms_witness :
    getTodos (sampleEnv .timeout) sampleSdk (.obj [("limit", .num 5)]) =
      _makeRequest (sampleEnv .timeout) sampleSdk "GET" "/todos?_limit=5" ∧
    getTodos (sampleEnv .timeout) sampleSdk (.obj [("_limit", .num 5)]) =
      _makeRequest (sampleEnv .timeout) sampleSdk "GET" "/todos?_limit=5" ∧
    getTodos (sampleEnv .timeout) sampleSdk (.obj [("limit", .num ⟨true, "1e+21"⟩)]) =
      _makeRequest (sampleEnv .timeout) sampleSdk "GET" "/todos?_limit=1e%2B21" ∧
    getTodos (sampleEnv .timeout) sampleSdk (.obj [("limit", .null)]) =
      _makeRequest (sampleEnv .timeout) sampleSdk "GET" "/todos" ∧
    (getTodosQuery (.obj [("_limit", .num 3), ("limit", .num 8)])).filter
        (fun p => p.1 == "_limit") = [("_limit", "8")] ∧
    (getTodosQuery (.obj [("_limit", .num 3), ("limit", .str "")])).filter
        (fun p => p.1 == "_limit") = [("_limit", "3")] :=
  have h := limit_synonyms (sampleEnv .timeout) sampleSdk (.num 5)
    [("_limit", .num 3), ("limit", .num 8)]
  have hbig := limit_synonyms (sampleEnv .timeout) sampleSdk (.num ⟨true, "1e+21"⟩) []
  have hnull := limit_synonyms (sampleEnv .timeout) sampleSdk .null
    [("_limit", .num 3), ("limit", .str "")]
  ⟨(h.1 rfl "5" rfl).1, (h.1 rfl "5" rfl).2, (hbig.1 rfl "1e+21" rfl).1, (hnull.2.1 rfl).1,
    h.2.2.1 "8" rfl rfl, hnull.2.2.2.1 "3" rfl rfl rfl⟩

end TodoSDK
